import Mathlib

/-!
Shallow embedding of the DALiuGE Pawsey cluster-start script
(`dlg/deploy/pawsey/start_dfms_cluster.py`) and the network helper
(`dfms/utils.py`), together with theorems settling the frozen claims
about the host health prober, the execution monitor, the graph
assembler's modifier pipeline, and the main entry point.

Conventions of the embedding:
- hosts are strings (`Ip`);
- the outcome of one TCP connection attempt is a `ConnectOutcome`
  (success, timeout, connection refused, or any other socket error);
- loops whose termination depends on the outside world take a `fuel`
  argument: a result of `none` means the loop did not finish within
  the given fuel, i.e. on an infinite outcome stream it never returns;
- Python exceptions are `Except` errors (`PyErr`).
-/

namespace Daliuge

abbrev Ip := String

/-- Modelled from the spec: the session status enumeration
(`dlg.manager.session.SessionStates` is not under `src/`); the data
model lists SCHEDULED, RUNNING, FINISHED, ERROR. -/
inductive SessionStates
  | SCHEDULED
  | RUNNING
  | FINISHED
  | ERROR
deriving DecidableEq, BEq, Repr

/-- Python exceptions that the embedded code can raise. -/
inductive PyErr
  | valueError (msg : String)
  | attributeError (msg : String)
  | unknownSymbol (name : String)
deriving DecidableEq, Repr

/-! ## Host Health Prober: dfms/utils.py writeToRemotePort and check_host -/

/-- What one `socket.connect` attempt inside `writeToRemotePort` can do:
succeed, raise `socket.timeout`, raise `socket.error` with
`errno == ECONNREFUSED`, or raise any other `socket.error`. -/
inductive ConnectOutcome
  | success
  | timedOut
  | refused
  | otherError
deriving DecidableEq, Repr

/-- The retry loop of `dfms.utils.writeToRemotePort`, driven by the trace
of connection-attempt outcomes. Time is abstracted: `budget` is the
number of refused attempts the timeout still allows (`none` models
`timeout in (None, 0)`, i.e. retry refused connections forever).
Per the source: success returns `True`; `socket.timeout` returns
`False`; `ECONNREFUSED` sleeps and retries until the timeout budget is
spent, then returns `False`; any other `socket.error` is re-raised.
`none` as the overall result means the loop outlived the trace. -/
def writeToRemotePort : Option Nat → List ConnectOutcome → Option (Except Unit Bool)
  | _, [] => none
  | budget, o :: rest =>
    match o with
    | ConnectOutcome.success => some (Except.ok true)
    | ConnectOutcome.timedOut => some (Except.ok false)
    | ConnectOutcome.otherError => some (Except.error ())
    | ConnectOutcome.refused =>
      match budget with
      | none => writeToRemotePort none rest
      | some b => if b = 0 then some (Except.ok false)
                  else writeToRemotePort (some (b - 1)) rest

/-- `check_host` with `check_with_session=False`: it just returns
`utils.portIsOpen(host, port, timeout)`, which is
`writeToRemotePort(host, port, data=None, timeout)`. -/
def check_host_tcp (budget : Option Nat) (outs : List ConnectOutcome) :
    Option (Except Unit Bool) :=
  writeToRemotePort budget outs

/-- `check_host` with `check_with_session=True`: create and destroy a
session inside `try`, return `True` on success; the bare `except`
turns every failure into `False`. `probe` is the combined outcome of
the create/destroy round trip against the manager. -/
def check_host_session (probe : Except Unit Unit) : Bool :=
  match probe with
  | Except.ok _ => true
  | Except.error _ => false

/-! ## Host Health Prober: check_hosts (start_dfms_cluster.py) -/

/-- The `while ntries:` loop body of `check_and_add` inside
`check_hosts`. `succ ip k` abstracts the boolean result of
`check_host(ip, port, ...)` on attempt number `k`. The update
`ntries -= 0` of the source is transcribed as `ntries - 0`. -/
def check_and_add_loop (succ : Ip → Nat → Bool) (ip : Ip) :
    Nat → Nat → Nat → Option (Option Ip)
  | 0, _, _ => none
  | fuel + 1, ntries, attempt =>
    if ntries = 0 then some none
    else if succ ip attempt then some (some ip)
    else check_and_add_loop succ ip fuel (ntries - 0) (attempt + 1)

/-- `check_and_add(ip)`: run the retry loop starting from
`ntries = retry`, first attempt numbered 0. -/
def check_and_add (fuel : Nat) (succ : Ip → Nat → Bool) (retry : Nat) (ip : Ip) :
    Option (Option Ip) :=
  check_and_add_loop succ ip fuel retry 0

/-- `ThreadPool.map(check_and_add, ips)`: order-preserving map that is
joined completely; if any worker never finishes, the map never
returns (`none`). -/
def pool_map (f : Ip → Option (Option Ip)) : List Ip → Option (List (Option Ip))
  | [] => some []
  | ip :: rest =>
    match f ip, pool_map f rest with
    | some a, some l => some (a :: l)
    | _, _ => none

/-- `check_hosts(ips, port, timeout, check_with_session, retry)`.
`ThreadPool(min(50, len(ips)))` raises
`ValueError("Number of processes must be at least 1")` when the pool
size is below 1 (CPython `multiprocessing.pool.Pool.__init__`); then
the fully joined map is filtered of its `None` entries. -/
def check_hosts (fuel : Nat) (succ : Ip → Nat → Bool) (retry : Nat) (ips : List Ip) :
    Except PyErr (Option (List Ip)) :=
  if min 50 ips.length < 1 then
    Except.error (PyErr.valueError "Number of processes must be at least 1")
  else
    Except.ok ((pool_map (check_and_add fuel succ retry) ips).map
      (fun up => up.filterMap id))

/-- Modelled from the spec: the design-note-corrected retry loop whose
remaining-attempt count decreases on every failed attempt (the spec
flags the source's non-decreasing `ntries -= 0` as a defect and states
this decrementing behaviour as the intent). -/
def check_and_add_spec_loop (succ : Ip → Nat → Bool) (ip : Ip) :
    Nat → Nat → Nat → Option (Option Ip)
  | 0, _, _ => none
  | fuel + 1, ntries, attempt =>
    if ntries = 0 then some none
    else if succ ip attempt then some (some ip)
    else check_and_add_spec_loop succ ip fuel (ntries - 1) (attempt + 1)

/-- Modelled from the spec: `check_and_add` with the corrected loop. -/
def check_and_add_spec (fuel : Nat) (succ : Ip → Nat → Bool) (retry : Nat) (ip : Ip) :
    Option (Option Ip) :=
  check_and_add_spec_loop succ ip fuel retry 0

/-- Modelled from the spec: `check_hosts` over the corrected retry loop. -/
def check_hosts_spec (fuel : Nat) (succ : Ip → Nat → Bool) (retry : Nat) (ips : List Ip) :
    Except PyErr (Option (List Ip)) :=
  if min 50 ips.length < 1 then
    Except.error (PyErr.valueError "Number of processes must be at least 1")
  else
    Except.ok ((pool_map (check_and_add_spec fuel succ retry) ips).map
      (fun up => up.filterMap id))

/-! ## Execution Monitor: monitor_execution_finished -/

/-- `all(are_finished)` for one session: every status value of the
session's status-by-participant dictionary equals
`SessionStates.FINISHED` (`all` of an empty list is `True`). -/
def session_all_finished (statusValues : List SessionStates) : Bool :=
  statusValues.all (fun s => s == SessionStates.FINISHED)

/-- One iteration of the `while True:` body of
`monitor_execution_finished`: the `for session in dc.sessions():` loop
executes `return` at the first session whose participants are all
FINISHED, so the function returns during this cycle exactly when some
session of the cycle satisfies `all(are_finished)`. -/
def cycle_returns (sessions : List (List SessionStates)) : Bool :=
  sessions.any session_all_finished

/-- `monitor_execution_finished(host, port)`: poll cycle `k` sees
`cycles k` (the sessions returned by `dc.sessions()` with their status
values); the loop runs forever until some cycle triggers the inner
`return`. `none` means it did not return within `fuel` cycles. -/
def monitor_execution_finished :
    Nat → (Nat → List (List SessionStates)) → Nat → Option Unit
  | 0, _, _ => none
  | fuel + 1, cycles, k =>
    if cycle_returns (cycles k) then some ()
    else monitor_execution_finished fuel cycles (k + 1)

/-! ## Execution Monitor: monitor_graph snapshot records -/

/-- JSON values as written by `json.dump` in `monitor_graph`. -/
inductive Json
  | str (s : String)
  | num (n : Int)
  | obj (fields : List (String × Json))

/-- Field lookup in a JSON object. -/
def Json.getField : Json → String → Option Json
  | Json.obj fields, k => fields.lookup k
  | _, _ => none

/-- The format string `time_str = '%.3f' % time.time()` with the clock
modelled in integer milliseconds. -/
def fmt3 (ms : Nat) : String :=
  let frac := ms % 1000
  let pad := if frac < 10 then "00" else if frac < 100 then "0" else ""
  toString (ms / 1000) ++ "." ++ pad ++ toString frac

/-- The record `wg = {'ssid': ssid, 'g': graph}` appended once per
session to the `_g.log` snapshot file. -/
def graph_record (ssid : String) (graph : Json) : Json :=
  Json.obj [("ssid", Json.str ssid), ("g", graph)]

/-- The record `wgs = {'ssid': ssid, 'gs': ..., 'ts': time_str}`
appended every cycle to the `_s.log` snapshot file; `ts` holds the
string `time_str`. -/
def status_record (ssid : String) (gs : Json) (nowMs : Nat) : Json :=
  Json.obj [("ssid", Json.str ssid), ("gs", gs), ("ts", Json.str (fmt3 nowMs))]

/-! ## Graph Assembler: modify_pg, the modifier loop, and get_pg -/

/-- Modelled from the spec: the Drop record of the physical-graph data
model (the source handles the graph as opaque JSON produced by the
external partitioner). -/
structure Drop where
  oid : String
  name : String
  appType : String
  command : String
  inputs : List String
  outputs : List String
deriving DecidableEq, Repr

/-- A physical graph: an ordered sequence of drop specs. -/
abbrev PG := List Drop

/-- A modifier function: `(PhysicalGraph, positional args, named args)
to PhysicalGraph`, the signature the spec gives for registry entries. -/
abbrev ModFn := PG → List String → List (String × String) → PG

/-- Modelled from the spec: `utils.get_symbol` (`dlg.utils` is not
under `src/`) resolves a dotted name to a function; modelled as a
partial map from names to modifier functions, `none` meaning the name
does not resolve. -/
abbrev Registry := String → Option ModFn

/-- Python's `str.split(sep)` on a character-list, single-character
separator: `''.split(c) == ['']`, empty fields are kept. -/
def splitChar (c : Char) : List Char → List (List Char)
  | [] => [[]]
  | x :: xs =>
    match splitChar c xs with
    | [] => [[]]
    | h :: t => if x = c then [] :: h :: t else (x :: h) :: t

/-- Python's `s.split(c)` for a single-character separator. -/
def pySplit (s : String) (c : Char) : List String :=
  (splitChar c s.toList).map (fun l => String.mk l)

/-- Python's `c in s` for a single character. -/
def pyContains (s : String) (c : Char) : Bool :=
  s.toList.contains c

/-- One element of `dict(map(lambda x: x.split('='), ...))`: the
construction succeeds only when the split yields exactly two parts,
otherwise `dict` raises `ValueError`. -/
def parse_kwarg (p : String) : Option (String × String) :=
  match pySplit p '=' with
  | [k, v] => some (k, v)
  | _ => none

/-- All-or-nothing traversal used for the kwargs dictionary. -/
def kwargs_dict (f : String → Option (String × String)) :
    List String → Option (List (String × String))
  | [] => some []
  | x :: xs =>
    match f x, kwargs_dict f xs with
    | some y, some ys => some (y :: ys)
    | _, _ => none

/-- `modify_pg(pgt, modifier)`: split the spec on commas, resolve
`parts[0]` (raising on an unknown name before anything else runs, as in
the source where `get_symbol` is called first), split the remaining
parts into positional and named arguments, and return
`func(pgt, *args, **kwargs)`. -/
def modify_pg (reg : Registry) (pgt : PG) (modifier : String) : Except PyErr PG :=
  match reg ((pySplit modifier ',').headD "") with
  | none => Except.error (PyErr.unknownSymbol ((pySplit modifier ',').headD ""))
  | some func =>
    match kwargs_dict parse_kwarg
        ((pySplit modifier ',').tail.filter (fun x => pyContains x '=')) with
    | none => Except.error
        (PyErr.valueError "dictionary update sequence element has length not 2")
    | some kwargs =>
      Except.ok (func pgt
        ((pySplit modifier ',').tail.filter (fun x => !(pyContains x '='))) kwargs)

/-- The loop `for modifier in opts.pg_modifiers.split(':'):
modify_pg(pgt, modifier)` of `get_pg`. The value returned by
`modify_pg` is not assigned to anything, exactly as in the source, so
`pgt` is threaded through unchanged; `trace` instruments the loop with
the resolved names of the modifiers that were invoked, and an error
carries the trace accumulated up to the failing spec. -/
def modifier_loop (reg : Registry) :
    List String → PG → List String → Except (PyErr × List String) (PG × List String)
  | [], pgt, trace => Except.ok (pgt, trace)
  | m :: rest, pgt, trace =>
    match modify_pg reg pgt m with
    | Except.error e => Except.error (e, trace)
    | Except.ok _ => modifier_loop reg rest pgt (trace ++ [(pySplit m ',').headD ""])

/-- The CLI options of `main()` that the embedded paths read. -/
structure Options where
  log_dir : String
  monitor_host : Option String
  num_islands : Nat
  dump : Bool
  check_interfaces : Bool
  logical_graph : Option String
  physical_graph : Option String
  pg_modifiers : Option String
  check_with_session : Bool

/-- Python truthiness of an optional string option (`None` and the
empty string are falsy). -/
def truthy : Option String → Bool
  | none => false
  | some s => !s.isEmpty

/-- `get_pg(opts, nms, dims)` up to the call of `tool.resource_map`:
return early when neither graph option is truthy; split
`opts.pg_modifiers` on colons (an `AttributeError` when the option kept
its `None` default); run the modifier loop; filter the node managers
through `check_hosts` (default `retry=1`); and hand
`(pgt, dims + nms_up)` to the external `tool.resource_map`. `assembled`
is the graph produced before the loop by the external
unroll/partition step or loaded from the physical-graph file. The
outer `Option` is `none` when the embedded `check_hosts` call never
returns. -/
def get_pg (fuel : Nat) (succ : Ip → Nat → Bool) (reg : Registry) (opts : Options)
    (nms dims : List Ip) (assembled : PG) :
    Option (Except PyErr (Option (PG × List Ip))) :=
  if !(truthy opts.logical_graph) && !(truthy opts.physical_graph) then
    some (Except.ok none)
  else
    match opts.pg_modifiers with
    | none => some (Except.error
        (PyErr.attributeError "NoneType object has no attribute split"))
    | some mods =>
      match modifier_loop reg (pySplit mods ':') assembled [] with
      | Except.error (e, _) => some (Except.error e)
      | Except.ok (pgt, _) =>
        match check_hosts fuel succ 1 nms with
        | Except.error e => some (Except.error e)
        | Except.ok none => none
        | Except.ok (some nms_up) => some (Except.ok (some (pgt, dims ++ nms_up)))

/-! ## Execution Coordinator: the prelude of main() -/

/-- How the prelude of `main()` leaves the process. -/
inductive MainOutcome
  | exit0 (printed : List String)
  | usage_error (msg : String)
  | orchestrate

/-- Only the `orchestrate` continuation can go on to start node,
island or master manager subprocesses. -/
def starts_manager_subprocess : MainOutcome → Bool
  | MainOutcome.orchestrate => true
  | _ => false

/-- The prelude of `main()` after `parse_args`: the
`--check-interfaces` branch prints the two discovered addresses and
calls `sys.exit(0)` before any of the option validations; then the
graph-option validations and the proxy/multi-island validation, each a
`parser.error` (non-zero exit); anything surviving proceeds to the
orchestration body. -/
def main_entry (opts : Options) (file_exists : String → Bool)
    (netifaces_addr ifconfig_addr : String) : MainOutcome :=
  if opts.check_interfaces then
    MainOutcome.exit0 ["From netifaces: " ++ netifaces_addr,
                       "From ifconfig: " ++ ifconfig_addr]
  else if truthy opts.logical_graph == truthy opts.physical_graph then
    MainOutcome.usage_error
      "Either a logical graph or physical graph filename must be specified"
  else if (opts.logical_graph.any (fun p => !(p.isEmpty) && !(file_exists p))) ||
          (opts.physical_graph.any (fun p => !(p.isEmpty) && !(file_exists p))) then
    MainOutcome.usage_error "Cannot locate graph file"
  else if opts.monitor_host.isSome && decide (1 < opts.num_islands) then
    MainOutcome.usage_error "We do not support proxy monitor multiple islands yet"
  else
    MainOutcome.orchestrate

/-! ## Concrete scenario inputs used by the claim theorems -/

/-- Attempt oracle for the C1 scenario: h2 fails on every attempt,
every other host succeeds immediately. -/
def c1_succ : Ip → Nat → Bool := fun ip _ => ip != "h2"

/-- A modifier spec resolves: its name is in the registry and each of
its `key=val` parts splits into exactly two pieces (so `modify_pg`
succeeds on it for every graph). -/
def modifier_resolves (reg : Registry) (s : String) : Bool :=
  (reg ((pySplit s ',').headD "")).isSome &&
    ((pySplit s ',').tail.filter (fun x => pyContains x '=')).all
      (fun p => (parse_kwarg p).isSome)

/-- A sample modifier that visibly changes the graph. -/
def reverse_mod : ModFn := fun pg _ _ => pg.reverse

/-- A sample registry resolving exactly the name of `reverse_mod`. -/
def demo_registry : Registry :=
  fun n => if n = "reverse" then some reverse_mod else none

/-- A sample drop. -/
def drop1 : Drop := ⟨"oid1", "d1", "app", "", [], []⟩

/-- Another sample drop. -/
def drop2 : Drop := ⟨"oid2", "d2", "app", "", [], []⟩

/-- A sample two-drop physical graph. -/
def pg0 : PG := [drop1, drop2]

/-- Options for the C3 scenario: a physical graph with one modifier. -/
def opts3 : Options :=
  { log_dir := "/tmp/log", monitor_host := none, num_islands := 1, dump := false,
    check_interfaces := false, logical_graph := none,
    physical_graph := some "pg.json", pg_modifiers := some "reverse",
    check_with_session := false }

/-- Options for the C8 witness: only the diagnostic flag is set; the
graph options are deliberately left in a state that would fail the
later validations. -/
def opts8 : Options :=
  { log_dir := "/tmp/log", monitor_host := none, num_islands := 1, dump := false,
    check_interfaces := true, logical_graph := none, physical_graph := none,
    pg_modifiers := none, check_with_session := false }

/-- Options for the C9 witness: a physical graph is given and
`--pg-modifiers` kept its `None` default. -/
def opts9 : Options :=
  { log_dir := "/tmp/log", monitor_host := none, num_islands := 1, dump := false,
    check_interfaces := false, logical_graph := none,
    physical_graph := some "pg.json", pg_modifiers := none,
    check_with_session := false }

/-! ## Helper lemmas -/

/-- For a host that fails every attempt and a nonzero retry budget, the
`while ntries:` loop never exits: `ntries -= 0` leaves the counter at 2
forever. -/
lemma h2_diverges :
    ∀ fuel attempt, check_and_add_loop c1_succ "h2" fuel 2 attempt = none := by
  intro fuel
  induction fuel with
  | zero => intro attempt; rfl
  | succ n ih =>
    intro attempt
    simp [check_and_add_loop, c1_succ]
    exact ih (attempt + 1)

/-- With h2 in the list, the fully joined pool map never returns, at
any fuel. -/
lemma c1_check_hosts_diverges :
    ∀ fuel, check_hosts fuel c1_succ 2 ["h1", "h2", "h3"] = Except.ok none := by
  intro fuel
  have h2 : check_and_add fuel c1_succ 2 "h2" = none := h2_diverges fuel 0
  cases h1 : check_and_add fuel c1_succ 2 "h1" <;>
    simp [check_hosts, pool_map, h2, h1]

/-- The retry loop only ever returns the probed host itself. -/
lemma check_and_add_loop_some (succ : Ip → Nat → Bool) (ip : Ip) :
    ∀ fuel ntries attempt r,
      check_and_add_loop succ ip fuel ntries attempt = some (some r) → r = ip := by
  intro fuel
  induction fuel with
  | zero => intro ntries attempt r h; simp [check_and_add_loop] at h
  | succ n ih =>
    intro ntries attempt r h
    by_cases h0 : ntries = 0
    · simp [check_and_add_loop, h0] at h
    · by_cases hs : succ ip attempt
      · simp [check_and_add_loop, h0, hs] at h
        exact h.symm
      · simp [check_and_add_loop, h0, hs] at h
        exact ih _ _ _ h

/-- Filtering the `None` entries out of a joined pool map yields the
order-preserving filter of the input list by per-host success. -/
lemma pool_map_filterMap (f : Ip → Option (Option Ip))
    (hf : ∀ ip r, f ip = some (some r) → r = ip) :
    ∀ ips up, pool_map f ips = some up →
      up.filterMap id = ips.filter (fun ip => decide (f ip = some (some ip))) := by
  intro ips
  induction ips with
  | nil =>
    intro up h
    simp [pool_map] at h
    subst h
    rfl
  | cons ip rest ih =>
    intro up h
    cases hfi : f ip with
    | none => simp [pool_map, hfi] at h
    | some a =>
      cases hrest : pool_map f rest with
      | none => simp [pool_map, hfi, hrest] at h
      | some l =>
        simp [pool_map, hfi, hrest] at h
        subst h
        cases a with
        | none =>
          have hne : ¬ (f ip = some (some ip)) := by simp [hfi]
          simp [List.filter_cons, hne, ih l hrest]
        | some r =>
          have hr : r = ip := hf ip r hfi
          subst hr
          simp [List.filter_cons, hfi, ih l hrest]

/-- A list whose elements all parse builds its kwargs dictionary. -/
lemma kwargs_dict_isSome (f : String → Option (String × String)) :
    ∀ l : List String, (l.all fun a => (f a).isSome) = true →
      ∃ l', kwargs_dict f l = some l' := by
  intro l
  induction l with
  | nil => intro _; exact ⟨[], rfl⟩
  | cons x xs ih =>
    intro h
    simp [List.all_cons] at h
    obtain ⟨hx, hxs⟩ := h
    obtain ⟨y, hy⟩ := Option.isSome_iff_exists.mp hx
    obtain ⟨l', hl'⟩ := ih (by simpa using hxs)
    exact ⟨y :: l', by simp [kwargs_dict, hy, hl']⟩

/-- A resolving modifier spec makes `modify_pg` succeed on any graph. -/
lemma modify_pg_ok_of_resolves (reg : Registry) (s : String)
    (h : modifier_resolves reg s = true) (g : PG) :
    ∃ g', modify_pg reg g s = Except.ok g' := by
  unfold modifier_resolves at h
  simp only [Bool.and_eq_true] at h
  obtain ⟨hreg, hkw⟩ := h
  obtain ⟨f, hf⟩ := Option.isSome_iff_exists.mp hreg
  obtain ⟨kw, hkwd⟩ := kwargs_dict_isSome parse_kwarg _ hkw
  refine ⟨f g ((pySplit s ',').tail.filter (fun x => !(pyContains x '='))) kw, ?_⟩
  unfold modify_pg
  rw [hf, hkwd]

/-- The modifier loop runs (and discards) every resolving spec before
the unknown name, and only then raises, with the invoked names in the
error's trace. -/
lemma modifier_loop_lazy (reg : Registry) (m : String) (post : List String)
    (pgt : PG) (hm : reg ((pySplit m ',').headD "") = none) :
    ∀ (pre : List String) (trace : List String),
      (∀ s ∈ pre, modifier_resolves reg s = true) →
      modifier_loop reg (pre ++ m :: post) pgt trace
        = Except.error (PyErr.unknownSymbol ((pySplit m ',').headD ""),
            trace ++ pre.map (fun s => (pySplit s ',').headD "")) := by
  intro pre
  induction pre with
  | nil =>
    intro trace _
    have hmod : modify_pg reg pgt m
        = Except.error (PyErr.unknownSymbol ((pySplit m ',').headD "")) := by
      unfold modify_pg
      rw [hm]
    simp [modifier_loop, hmod]
  | cons s pre ih =>
    intro trace hpre
    obtain ⟨g', hg'⟩ := modify_pg_ok_of_resolves reg s (hpre s (by simp)) pgt
    have hrest : ∀ x ∈ pre, modifier_resolves reg x = true :=
      fun x hx => hpre x (by simp [hx])
    calc modifier_loop reg ((s :: pre) ++ m :: post) pgt trace
        = modifier_loop reg (pre ++ m :: post) pgt
            (trace ++ [(pySplit s ',').headD ""]) := by
          simp [modifier_loop, hg']
      _ = Except.error (PyErr.unknownSymbol ((pySplit m ',').headD ""),
            trace ++ (s :: pre).map (fun x => (pySplit x ',').headD "")) := by
          rw [ih _ hrest]
          simp

/-- With an empty session list on every cycle, the monitor loop never
returns, at any fuel. -/
lemma monitor_no_sessions_diverges :
    ∀ fuel k, monitor_execution_finished fuel (fun _ => []) k = none := by
  intro fuel
  induction fuel with
  | zero => intro k; rfl
  | succ n ih =>
    intro k
    simp [monitor_execution_finished, cycle_returns]
    exact ih (k + 1)

/-! ## Claim theorems -/

/-- C1: for hosts `[h1, h2, h3]` with h2 failing on every attempt and
`retry = 2`, the claim expects `check_hosts` to exclude h2 after
exactly two failed attempts and return `[h1, h3]`. Instead, because
`ntries -= 0` never decrements the retry counter, the probe of h2
loops forever and `check_hosts` never returns, at any fuel (first
conjunct); under the spec's corrected decrementing loop the claimed
result `[h1, h3]` does hold (second conjunct). -/
theorem c1_retry_counter_never_decreases :
    (∀ fuel, check_hosts fuel c1_succ 2 ["h1", "h2", "h3"] = Except.ok none) ∧
    check_hosts_spec 3 c1_succ 2 ["h1", "h2", "h3"]
      = Except.ok (some ["h1", "h3"]) :=
  ⟨c1_check_hosts_diverges, rfl⟩

/-- C2: the claim says the monitor's poll loop exits only when every
observed session reports FINISHED, and that one non-terminal session
among terminal ones prevents termination. The code instead returns at
the first session whose participants are all FINISHED: with sessions
`[[FINISHED], [RUNNING]]` the loop exits in its very first cycle
(first conjunct) even though the RUNNING session is non-terminal
(second conjunct); and with no sessions at all — vacuously all
FINISHED — it never exits (third conjunct). -/
theorem c2_monitor_returns_on_first_finished_session :
    monitor_execution_finished 1
      (fun _ => [[SessionStates.FINISHED], [SessionStates.RUNNING]]) 0
      = some () ∧
    session_all_finished [SessionStates.RUNNING] = false ∧
    (∀ fuel k, monitor_execution_finished fuel (fun _ => []) k = none) :=
  ⟨rfl, rfl, monitor_no_sessions_diverges⟩

/-- C3: the claim says the graph handed on to resource mapping equals
the composition of the modifiers applied in list order. But `get_pg`
discards the value returned by `modify_pg`, so with the modifier list
`"reverse"` the pair handed to `tool.resource_map` still carries the
unmodified input graph `pg0` (first conjunct), although the invoked
modifier would have produced a different graph (second conjunct). -/
theorem c3_modifier_results_discarded :
    get_pg 1 (fun _ _ => true) demo_registry opts3 ["n1"] ["i1"] pg0
      = some (Except.ok (some (pg0, ["i1", "n1"]))) ∧
    reverse_mod pg0 [] [] ≠ pg0 :=
  ⟨rfl, by decide⟩

/-- C4 counterexample: on the list `reverse:bogus` with only `reverse`
in the registry, the loop raises on `bogus` only after `reverse` has
already been resolved and invoked — the error's trace of applied
modifiers is `["reverse"]`, not empty, refuting the claim that the
unknown name is detected before any modifier runs. -/
theorem c4_counterexample :
    modifier_loop demo_registry ["reverse", "bogus"] pg0 []
      = Except.error (PyErr.unknownSymbol "bogus", ["reverse"]) ∧
    (["reverse"] : List String) ≠ [] :=
  ⟨rfl, by simp⟩

/-- C4 amended: resolution of modifier names is lazy, once per loop
iteration: if every spec before the unknown name resolves, the loop
invokes each of them (discarding the results) and raises only upon
reaching the unknown name, with exactly the earlier modifiers' names
in its applied trace. -/
theorem c4_lazy_modifier_resolution (reg : Registry) (m : String)
    (post : List String) (pgt : PG) (pre : List String)
    (hpre : ∀ s ∈ pre, modifier_resolves reg s = true)
    (hm : reg ((pySplit m ',').headD "") = none) :
    modifier_loop reg (pre ++ m :: post) pgt []
      = Except.error (PyErr.unknownSymbol ((pySplit m ',').headD ""),
          pre.map (fun s => (pySplit s ',').headD "")) := by
  simpa using modifier_loop_lazy reg m post pgt hm pre [] hpre

/-- C4 witness: the amended statement at the concrete list
`["reverse", "bogus"]` over the sample registry. -/
theorem c4_lazy_modifier_resolution_witness :
    modifier_loop demo_registry (["reverse"] ++ "bogus" :: []) pg0 []
      = Except.error (PyErr.unknownSymbol "bogus", ["reverse"]) := by
  have := c4_lazy_modifier_resolution demo_registry "bogus" [] pg0 ["reverse"]
    (by intro s hs; rw [List.mem_singleton] at hs; subst hs; rfl) (by rfl)
  simpa using this

/-- C5 counterexample: a single connection attempt that fails with a
socket error other than timeout or refused — e.g. host-unreachable,
the typical failure of an unreachable host — makes `check_host`
(TCP path) raise instead of returning false, refuting the claim that
it never raises for an unreachable host. -/
theorem c5_counterexample :
    check_host_tcp (some 5) [ConnectOutcome.otherError]
      = some (Except.error ()) :=
  rfl

/-- C5 amended: on the TCP path a successful connect yields true, a
timeout yields false, refused connections are retried until the
timeout budget is spent and then yield false, but any other socket
error propagates out of `check_host`; only the session-probing path
swallows every failure into false. The code performs no port
validation of its own. -/
theorem c5_check_host_error_propagation (budget : Option Nat) (b : Nat)
    (rest : List ConnectOutcome) (e : Unit) :
    check_host_tcp budget (ConnectOutcome.success :: rest)
      = some (Except.ok true) ∧
    check_host_tcp budget (ConnectOutcome.timedOut :: rest)
      = some (Except.ok false) ∧
    check_host_tcp budget (ConnectOutcome.otherError :: rest)
      = some (Except.error ()) ∧
    check_host_tcp (some 0) (ConnectOutcome.refused :: rest)
      = some (Except.ok false) ∧
    check_host_tcp (some (b + 1)) (ConnectOutcome.refused :: rest)
      = check_host_tcp (some b) rest ∧
    check_host_session (Except.error e) = false ∧
    check_host_session (Except.ok ()) = true := by
  refine ⟨rfl, rfl, rfl, rfl, ?_, rfl, rfl⟩
  simp [check_host_tcp, writeToRemotePort]

/-- C6 counterexample: the once-per-session graph record is exactly
`{ssid, g}` — it carries no timestamp at all (first two conjuncts) —
and the per-cycle status record's `ts` field holds the string
`time_str`, not a float (third conjunct), refuting the claim that both
records carry a float timestamp. -/
theorem c6_counterexample :
    (graph_record "s1" (Json.obj [])).getField "ts" = none ∧
    graph_record "s1" (Json.obj [])
      = Json.obj [("ssid", Json.str "s1"), ("g", Json.obj [])] ∧
    (status_record "s1" (Json.obj []) 12345).getField "ts"
      = some (Json.str "12.345") :=
  ⟨rfl, rfl, rfl⟩

/-- C6 amended: both snapshot records are newline-delimited JSON
objects carrying the session id; the per-cycle status record
additionally carries its timestamp serialized as a string with three
decimals, while the once-per-session graph record carries no timestamp
field. -/
theorem c6_snapshot_record_fields (ssid : String) (g gs : Json) (ms : Nat) :
    (graph_record ssid g).getField "ssid" = some (Json.str ssid) ∧
    (graph_record ssid g).getField "g" = some g ∧
    (graph_record ssid g).getField "ts" = none ∧
    (status_record ssid gs ms).getField "ssid" = some (Json.str ssid) ∧
    (status_record ssid gs ms).getField "gs" = some gs ∧
    (status_record ssid gs ms).getField "ts" = some (Json.str (fmt3 ms)) :=
  ⟨rfl, rfl, rfl, rfl, rfl, rfl⟩

/-- C7: whenever `check_hosts` produces a result, that result is the
order-preserving filter of the input list by per-host success — the
hosts whose probe returned them, in input order — and hence a
subsequence of the input. -/
theorem c7_check_hosts_order_preserving (fuel retry : Nat)
    (succ : Ip → Nat → Bool) (ips l : List Ip)
    (h : check_hosts fuel succ retry ips = Except.ok (some l)) :
    l = ips.filter
        (fun ip => decide (check_and_add fuel succ retry ip = some (some ip))) ∧
    l.Sublist ips := by
  unfold check_hosts at h
  by_cases hlen : min 50 ips.length < 1
  · simp [hlen] at h
  · simp only [hlen, if_false] at h
    cases hp : pool_map (check_and_add fuel succ retry) ips with
    | none => rw [hp] at h; simp at h
    | some up =>
      rw [hp] at h
      simp at h
      have hfil := pool_map_filterMap (check_and_add fuel succ retry)
        (fun ip r hr => check_and_add_loop_some succ ip fuel retry 0 r hr) ips up hp
      rw [h] at hfil
      exact ⟨hfil, hfil ▸ List.filter_sublist ips⟩

/-- C7 witness: with `retry = 0` every probe returns `None`, so the
result is the empty subsequence of `["a", "b"]`. -/
theorem c7_check_hosts_order_preserving_witness :
    ([] : List Ip) = (["a", "b"].filter
        (fun ip => decide (check_and_add 1 (fun _ _ => true) 0 ip
          = some (some ip)))) ∧
    List.Sublist ([] : List Ip) ["a", "b"] :=
  c7_check_hosts_order_preserving 1 0 (fun _ _ => true) ["a", "b"] [] (by rfl)

/-- C8: with `--check-interfaces` set, whatever the other options are
(including combinations the later validations would reject), `main`
prints exactly the two discovered address strings and exits with
status 0, and the outcome starts no manager subprocess. -/
theorem c8_check_interfaces_short_circuit (opts : Options)
    (file_exists : String → Bool) (na ia : String)
    (h : opts.check_interfaces = true) :
    main_entry opts file_exists na ia
      = MainOutcome.exit0 ["From netifaces: " ++ na, "From ifconfig: " ++ ia] ∧
    (["From netifaces: " ++ na, "From ifconfig: " ++ ia] : List String).length
      = 2 ∧
    starts_manager_subprocess (main_entry opts file_exists na ia) = false := by
  refine ⟨?_, rfl, ?_⟩ <;> simp [main_entry, h, starts_manager_subprocess]

/-- C8 witness: the short-circuit at concrete options that would fail
the graph-argument validation, with concrete discovered addresses. -/
theorem c8_check_interfaces_short_circuit_witness :
    main_entry opts8 (fun _ => false) "10.0.0.1" "10.0.0.2"
      = MainOutcome.exit0
          ["From netifaces: 10.0.0.1", "From ifconfig: 10.0.0.2"] ∧
    (["From netifaces: 10.0.0.1", "From ifconfig: 10.0.0.2"] :
      List String).length = 2 ∧
    starts_manager_subprocess
      (main_entry opts8 (fun _ => false) "10.0.0.1" "10.0.0.2") = false := by
  have := c8_check_interfaces_short_circuit opts8 (fun _ => false)
    "10.0.0.1" "10.0.0.2" rfl
  simpa using this

/-- C9: whenever a graph option is truthy (so `get_pg` does not return
early) and `--pg-modifiers` kept its `None` default, `get_pg` raises
`AttributeError` at `opts.pg_modifiers.split(':')` — graph assembly
cannot complete without explicitly passing the flag. -/
theorem c9_pg_modifiers_none_attribute_error (fuel : Nat)
    (succ : Ip → Nat → Bool) (reg : Registry) (opts : Options)
    (nms dims : List Ip) (assembled : PG)
    (hmod : opts.pg_modifiers = none)
    (hgraph : (!(truthy opts.logical_graph) && !(truthy opts.physical_graph))
      = false) :
    get_pg fuel succ reg opts nms dims assembled
      = some (Except.error
          (PyErr.attributeError "NoneType object has no attribute split")) := by
  simp [get_pg, hgraph, hmod]

/-- C9 witness: the `AttributeError` at concrete options carrying a
physical graph and the `None` default for the modifiers. -/
theorem c9_pg_modifiers_none_attribute_error_witness :
    get_pg 1 (fun _ _ => true) demo_registry opts9 ["n1"] ["i1"] pg0
      = some (Except.error
          (PyErr.attributeError "NoneType object has no attribute split")) :=
  c9_pg_modifiers_none_attribute_error 1 (fun _ _ => true) demo_registry opts9
    ["n1"] ["i1"] pg0 rfl rfl

/-- C10: applied to an empty host list, `check_hosts` constructs
`ThreadPool(min(50, 0))` and raises the pool's `ValueError` instead of
returning the empty list. -/
theorem c10_empty_ips_rejected :
    check_hosts 1 (fun _ _ => true) 1 ([] : List Ip)
      = Except.error (PyErr.valueError "Number of processes must be at least 1") :=
  rfl

end Daliuge
